import Mathlib

/-!
Verification development for the superconductor-playground control loop
(src/lib.rs).  The plugin spawns an avatar entity carrying a PlayerState and
an AnimationState, registers four per-tick systems (rotate_entities,
handle_keyboard_input, update_camera, sync_animation), and drives a dolly
camera rig made of a Position driver and a YawPitch driver.

The embedding below translates the Rust source directly: machine floats are
modelled as real numbers, the Bevy ECS resources and the single avatar entity
become one explicit World record, per-tick systems become functions on World,
and the event queue drain becomes a left fold over a list of events.  The
dolly and glam crates are external dependencies whose sources are not part of
this repository; the few operations of theirs that the source calls
(YawPitch mutation, rig composition, Vec3 clamp_length_max) are modelled from
the specification of the camera rig, as noted on each definition.
-/

/-- The closed 14-value locomotion state enumeration, from enum PlayerStates
in src/lib.rs (declaration order preserved). -/
inductive PlayerStates
  | Falling
  | FallingToLanding
  | Idle
  | LeftTurnFeet
  | RightTurnFeet
  | Running
  | RunningJump
  | SittingIdle
  | SprinttoRoll
  | Standin
  | Jump
  | StandingPose
  | StartWalking
  | Walking
deriving DecidableEq, Fintype

/-- The canonical ordering array, from const PLAYER_STATES in src/lib.rs. -/
def PLAYER_STATES : List PlayerStates :=
  [.Falling, .FallingToLanding, .Idle, .LeftTurnFeet, .RightTurnFeet,
   .Running, .RunningJump, .SittingIdle, .SprinttoRoll, .Standin,
   .Jump, .StandingPose, .StartWalking, .Walking]

/-- The position lookup performed by sync_animation before unwrap:
PLAYER_STATES.iter().position(|p| *p == p_state.0). -/
def playerOrdinal? (s : PlayerStates) : Option Nat :=
  PLAYER_STATES.findIdx? (fun p => p == s)

/-- The same lookup as a total function; C2 shows that the optional lookup
always succeeds and agrees with this value, so the unwrap in sync_animation
cannot panic. -/
def playerOrdinal (s : PlayerStates) : Nat :=
  PLAYER_STATES.findIdx (fun p => p == s)

/-- C2: the position lookup of sync_animation is a bijection from the 14
PlayerStates values onto the indices 0..13, matching the declared canonical
order: the lookup never fails, every value occurs at exactly one index,
distinct values get distinct indices, every index below 14 is hit, and the
index found for a value points back at that value in PLAYER_STATES. -/
theorem C2_ordinal_bijection :
    (∀ s : PlayerStates, playerOrdinal? s = some (playerOrdinal s))
    ∧ (∀ s : PlayerStates, playerOrdinal s < 14)
    ∧ (∀ s : PlayerStates, PLAYER_STATES.countP (fun p => p == s) = 1)
    ∧ Function.Injective playerOrdinal
    ∧ (∀ i : Fin 14, ∃ s : PlayerStates, playerOrdinal s = i.val)
    ∧ (∀ s : PlayerStates, PLAYER_STATES.get? (playerOrdinal s) = some s) := by
  refine ⟨by decide, by decide, by decide, ?_, by decide, by decide⟩
  intro a b h
  revert h
  revert a b
  decide

/-- Three-component vector over the reals, modelling glam Vec3 (f32 fields
modelled as real numbers). -/
structure Vec3 where
  x : ℝ
  y : ℝ
  z : ℝ

/-- Componentwise vector addition. -/
def vadd (a b : Vec3) : Vec3 := ⟨a.x + b.x, a.y + b.y, a.z + b.z⟩

/-- Componentwise vector subtraction. -/
def vsub (a b : Vec3) : Vec3 := ⟨a.x - b.x, a.y - b.y, a.z - b.z⟩

/-- Scalar multiple of a vector. -/
def vsmul (c : ℝ) (v : Vec3) : Vec3 := ⟨c * v.x, c * v.y, c * v.z⟩

/-- Squared Euclidean length. -/
def magSq (v : Vec3) : ℝ := v.x ^ 2 + v.y ^ 2 + v.z ^ 2

/-- Euclidean length. -/
noncomputable def mag (v : Vec3) : ℝ := Real.sqrt (magSq v)

/-- Modelled from the spec: glam's Vec3::clamp_length_max (the glam crate is
an external dependency); the spec asks for the intent vector "clamped to unit
length", and glam documents clamp_length_max as rescaling the vector to the
bound whenever its squared length exceeds the bound squared, else returning
it unchanged. -/
noncomputable def clampLengthMax (v : Vec3) (m : ℝ) : Vec3 :=
  if m * m < magSq v then vsmul (m / mag v) v else v

/-- Degrees to radians, as f32::to_radians. -/
noncomputable def deg2rad (d : ℝ) : ℝ := d * Real.pi / 180

/-- Right-handed rotation about the X axis (pitch) by an angle in radians. -/
noncomputable def rotX (p : ℝ) (v : Vec3) : Vec3 :=
  ⟨v.x, Real.cos p * v.y - Real.sin p * v.z, Real.sin p * v.y + Real.cos p * v.z⟩

/-- Right-handed rotation about the Y axis (yaw) by an angle in radians. -/
noncomputable def rotY (t : ℝ) (v : Vec3) : Vec3 :=
  ⟨Real.cos t * v.x + Real.sin t * v.z, v.y, -Real.sin t * v.x + Real.cos t * v.z⟩

/-- Modelled from the spec: the rotation the rig's final_transform applies to
a vector.  The dolly crate is an external dependency; the spec's data model
says the yaw/pitch driver "holds two angles" (degrees) and that update
composes the drivers into a final_transform rotation, i.e. the standard
yaw-about-Y composed with pitch-about-X camera rotation. -/
noncomputable def rotateVec (yawDeg pitchDeg : ℝ) (v : Vec3) : Vec3 :=
  rotY (deg2rad yawDeg) (rotX (deg2rad pitchDeg) v)

/-- The dolly camera rig state: the Position driver's translation, the
YawPitch driver's two angles (degrees), and the final_transform produced by
the last update call (position plus the yaw/pitch pair its rotation was
built from). -/
structure CameraRig where
  driver_position : Vec3
  driver_yaw : ℝ
  driver_pitch : ℝ
  final_position : Vec3
  final_yaw : ℝ
  final_pitch : ℝ

/-- Modelled from the spec: CameraRig::update composes the drivers into
final_transform; with an unsmoothed Position driver and a YawPitch driver the
final pose is the driver translation and the driver angles (dt only matters
for smoothing, which this rig does not use). -/
def rigUpdate (r : CameraRig) : CameraRig :=
  { r with final_position := r.driver_position,
           final_yaw := r.driver_yaw,
           final_pitch := r.driver_pitch }

/-- The rig built in SuperconductorPlugin::build: Position at (0, 1.75, 0),
YawPitch with pitch_degrees(0.0); the builder runs an initial update so the
final transform starts valid. -/
def initialRig : CameraRig :=
  rigUpdate { driver_position := ⟨0, 1.75, 0⟩, driver_yaw := 0, driver_pitch := 0,
              final_position := ⟨0, 1.75, 0⟩, final_yaw := 0, final_pitch := 0 }

/-- The KeyboardState resource from src/lib.rs (field order preserved). -/
structure KeyboardState where
  forwards : Bool
  right : Bool
  left : Bool
  backwards : Bool
  cursor_grab : Bool
deriving DecidableEq

/-- The WindowChanges outbox resource: optional cursor-grab and
cursor-visibility requests. -/
structure WindowChanges where
  cursor_grab : Option Bool
  cursor_visible : Option Bool
deriving DecidableEq

/-- The AnimationState component (time, animation_index). -/
structure AnimationState where
  time : ℝ
  animation_index : Nat

/-- The externally visible Camera resource; its rotation quaternion is
represented by the yaw/pitch pair it is built from. -/
structure Camera where
  position : Vec3
  rot_yaw : ℝ
  rot_pitch : ℝ

/-- The virtual key codes distinguished by handle_keyboard_input. -/
inductive Key
  | W
  | UpArrow
  | A
  | LeftArrow
  | S
  | DownArrow
  | D
  | RightArrow
  | G
  | Space
  | LShift
  | Unhandled
deriving DecidableEq

/-- One event of the drained queue: a keyboard input with its pressed state,
a raw device mouse-motion delta, or any other event (ignored by the code). -/
inductive Event
  | keyboard (key : Key) (pressed : Bool)
  | mouseMotion (dx dy : ℝ)
  | other

/-- The whole mutable state the four systems touch: the resources, the single
avatar instance entity's components, the Bevy change-detection flag the
Changed PlayerState filter of sync_animation reads (set when the component is
added or written, cleared when sync_animation runs), and a chronological log
of the writes made to the WindowChanges outbox (instrumentation making "a
request was written" statable; the Rust fields are simply overwritten). -/
structure World where
  keyboard : KeyboardState
  rig : CameraRig
  window : WindowChanges
  windowWrites : List (Bool × Bool)
  player : PlayerStates
  playerChanged : Bool
  anim : AnimationState
  camera : Camera

/-- World state right after SuperconductorPlugin::build spawns the avatar
instance entity: PlayerState Idle with AnimationState { time: 0.5,
animation_index: 5 }, default (all-false) KeyboardState, the initial rig;
the freshly added PlayerState counts as changed for the first
sync_animation run. -/
def spawnWorld : World :=
  { keyboard := ⟨false, false, false, false, false⟩,
    rig := initialRig,
    window := ⟨none, none⟩,
    windowWrites := [],
    player := .Idle,
    playerChanged := true,
    anim := { time := 0.5, animation_index := 5 },
    camera := { position := initialRig.final_position, rot_yaw := 0, rot_pitch := 0 } }

/-- Processing of one drained event by handle_keyboard_input in src/lib.rs.
Movement keys (with their arrow-key aliases) set the matching KeyboardState
boolean to the pressed level; a pressed G event flips cursor_grab and writes
both WindowChanges fields (new value, its negation); pressed Space / LShift
overwrite the avatar PlayerState (marking the component changed); a
mouse-motion delta rotates the YawPitch driver by -0.1 times the delta only
when cursor_grab is set; everything else is ignored. -/
noncomputable def handleEvent (w : World) (e : Event) : World :=
  match e with
  | .keyboard k pressed =>
    match k with
    | .W | .UpArrow =>
      { w with keyboard := { w.keyboard with forwards := pressed } }
    | .A | .LeftArrow =>
      { w with keyboard := { w.keyboard with left := pressed } }
    | .S | .DownArrow =>
      { w with keyboard := { w.keyboard with backwards := pressed } }
    | .D | .RightArrow =>
      { w with keyboard := { w.keyboard with right := pressed } }
    | .G =>
      if pressed then
        { w with keyboard := { w.keyboard with cursor_grab := !w.keyboard.cursor_grab },
                 window := { cursor_grab := some (!w.keyboard.cursor_grab),
                             cursor_visible := some (!(!w.keyboard.cursor_grab)) },
                 windowWrites := w.windowWrites
                   ++ [(!w.keyboard.cursor_grab, !(!w.keyboard.cursor_grab))] }
      else w
    | .Space =>
      if pressed then { w with player := .Jump, playerChanged := true } else w
    | .LShift =>
      if pressed then { w with player := .Running, playerChanged := true } else w
    | .Unhandled => w
  | .mouseMotion dx dy =>
    if w.keyboard.cursor_grab then
      { w with rig := { w.rig with driver_yaw := w.rig.driver_yaw + -0.1 * dx,
                                   driver_pitch := w.rig.driver_pitch + -0.1 * dy } }
    else w
  | .other => w

/-- The handle_keyboard_input system: drain the event queue once, in arrival
order. -/
noncomputable def handle_keyboard_input (w : World) (es : List Event) : World :=
  es.foldl handleEvent w

/-- Rust bool as i32 cast. -/
def boolToInt (b : Bool) : ℤ := if b then 1 else 0

/-- The unclamped movement intent vector built by update_camera:
Vec3::new(right - left, 0, -(forwards - backwards)). -/
def moveIntent (ks : KeyboardState) : Vec3 :=
  ⟨((boolToInt ks.right - boolToInt ks.left : ℤ) : ℝ), 0,
   -((boolToInt ks.forwards - boolToInt ks.backwards : ℤ) : ℝ)⟩

/-- The update_camera system from src/lib.rs: rotate the clamped movement
intent by the rig's final_transform rotation as it stands at the start of the
call, translate the Position driver by that vector times delta_time (1/60)
times speed (3.0), run the rig update, and copy the final transform into the
Camera resource. -/
noncomputable def update_camera (w : World) : World :=
  let move_vec := rotateVec w.rig.final_yaw w.rig.final_pitch
    (clampLengthMax (moveIntent w.keyboard) 1)
  let delta_time : ℝ := 1 / 60
  let speed : ℝ := 3
  let newPos := vadd w.rig.driver_position (vsmul speed (vsmul delta_time move_vec))
  let rig1 := { w.rig with driver_position := newPos }
  let rig2 := rigUpdate rig1
  { w with rig := rig2,
           camera := { position := rig2.final_position,
                       rot_yaw := rig2.final_yaw,
                       rot_pitch := rig2.final_pitch } }

/-- The sync_animation system from src/lib.rs: for the avatar entity matched
by the Changed PlayerState filter, recompute animation_index as the position
of the current state in PLAYER_STATES (the unwrap is safe by C2); running the
system consumes the change flag. -/
def sync_animation (w : World) : World :=
  if w.playerChanged then
    { w with anim := { w.anim with animation_index := playerOrdinal w.player },
             playerChanged := false }
  else w

/-- One logical tick over the World in the order the spec gives for the
subsystems that share this state: drain the event queue, update the camera,
synchronize the animation index.  (rotate_entities acts on the tagged scene
entities, modelled separately below, and touches none of this state.) -/
noncomputable def tick (w : World) (es : List Event) : World :=
  sync_animation (update_camera (handle_keyboard_input w es))

/-- A scene entity as relevant to rotate_entities: whether it carries the
Spinning tag component, and its Instance rotation, represented by the
accumulated yaw angle (the only rotations rotate_entities applies are about
the Y axis, by 0.01 radians each tick). -/
structure SceneEntity where
  spinning : Bool
  rotationY : ℝ

/-- The rotate_entities system from src/lib.rs: every entity with the
Spinning tag gets its Instance rotation multiplied by a 0.01-radian rotation
about Y; other entities are untouched. -/
def rotate_entities (es : List SceneEntity) : List SceneEntity :=
  es.map fun e => if e.spinning then { e with rotationY := e.rotationY + 0.01 } else e

/-- The entities spawned by SuperconductorPlugin::build carrying an Instance
or Instances component (the avatar model entity and the avatar instance
entity).  Neither insert call ever adds the Spinning component. -/
def spawnedEntities : List SceneEntity :=
  [{ spinning := false, rotationY := 0 }, { spinning := false, rotationY := 0 }]

/-- handle_keyboard_input never writes the AnimationState component, never
clears the PlayerState change flag, and leaves PlayerState alone whenever the
flag comes out clear. -/
theorem handleEvent_player_facts (w : World) (e : Event) :
    (handleEvent w e).anim = w.anim
    ∧ ((handleEvent w e).playerChanged = false →
        (handleEvent w e).player = w.player ∧ w.playerChanged = false) := by
  cases e with
  | keyboard k p =>
    cases k <;> cases p <;>
      first
        | exact ⟨rfl, fun h => ⟨rfl, h⟩⟩
        | simp [handleEvent]
  | mouseMotion dx dy =>
    simp only [handleEvent]
    split <;> exact ⟨rfl, fun h => ⟨rfl, h⟩⟩
  | other => exact ⟨rfl, fun h => ⟨rfl, h⟩⟩

/-- Fold version of handleEvent_player_facts over a whole drained queue. -/
theorem handle_keyboard_input_player_facts (w : World) (es : List Event) :
    (handle_keyboard_input w es).anim = w.anim
    ∧ ((handle_keyboard_input w es).playerChanged = false →
        (handle_keyboard_input w es).player = w.player ∧ w.playerChanged = false) := by
  induction es generalizing w with
  | nil => exact ⟨rfl, fun h => ⟨rfl, h⟩⟩
  | cons e es ih =>
    have h1 := handleEvent_player_facts w e
    have h2 := ih (handleEvent w e)
    have hstep : handle_keyboard_input w (e :: es)
        = handle_keyboard_input (handleEvent w e) es := rfl
    rw [hstep]
    refine ⟨h2.1.trans h1.1, fun hf => ?_⟩
    have h3 := h2.2 hf
    have h4 := h1.2 h3.2
    exact ⟨h3.1.trans h4.1, h4.2⟩

/-- update_camera touches only the rig and the Camera resource. -/
theorem update_camera_player_facts (w : World) :
    (update_camera w).anim = w.anim ∧ (update_camera w).player = w.player
    ∧ (update_camera w).playerChanged = w.playerChanged := ⟨rfl, rfl, rfl⟩

/-- The lazy-synchronization invariant: either the PlayerState component is
still flagged changed (the synchronizer has a pending recompute) or the
animation index already equals the canonical ordinal of the current state. -/
def SyncInv (w : World) : Prop :=
  w.playerChanged = true ∨ w.anim.animation_index = playerOrdinal w.player

/-- C1 counterexample: immediately after the avatar entity is spawned the
invariant fails: SuperconductorPlugin::build hardcodes animation_index 5 for
the AnimationState while PlayerState is Idle, whose canonical ordinal in
PLAYER_STATES is 2. -/
theorem C1_counterexample :
    spawnWorld.player = PlayerStates.Idle
    ∧ spawnWorld.anim.animation_index = 5
    ∧ playerOrdinal PlayerStates.Idle = 2
    ∧ spawnWorld.anim.animation_index ≠ playerOrdinal spawnWorld.player := by
  refine ⟨rfl, rfl, by decide, by decide⟩

/-- C1 amended: the spawn values violate the stated invariant (see the
counterexample), but from the first tick onward it holds: sync_animation's
Changed filter matches the freshly added component, so at the end of every
tick started in a state satisfying SyncInv (as the spawn state does, being
flagged changed) the animation index equals the canonical ordinal of the
current PlayerState, SyncInv is maintained, and the synchronizer rewrites the
AnimationState only on a tick where the PlayerState component was added or
written since its last run (Bevy change detection is write-based, not
value-based). -/
theorem C1_lazy_sync_invariant (w : World) (es : List Event) (h : SyncInv w) :
    (tick w es).anim.animation_index = playerOrdinal (tick w es).player
    ∧ SyncInv (tick w es)
    ∧ (w.playerChanged = false → (handle_keyboard_input w es).playerChanged = false →
        (tick w es).anim = w.anim) := by
  have hk := handle_keyboard_input_player_facts w es
  have hu := update_camera_player_facts (handle_keyboard_input w es)
  have htick : tick w es = sync_animation (update_camera (handle_keyboard_input w es)) := rfl
  rw [htick]
  cases hflag : (update_camera (handle_keyboard_input w es)).playerChanged with
  | true =>
    constructor
    · simp [sync_animation, hflag]
    constructor
    · right
      simp [sync_animation, hflag]
    · intro h1 h2
      rw [hu.2.2] at hflag
      rw [h2] at hflag
      cases hflag
  | false =>
    have hnoop : sync_animation (update_camera (handle_keyboard_input w es))
        = update_camera (handle_keyboard_input w es) := by
      simp [sync_animation, hflag]
    rw [hnoop]
    rw [hu.2.2] at hflag
    have h3 := hk.2 hflag
    have hidx : w.anim.animation_index = playerOrdinal w.player := by
      cases h with
      | inl ht => rw [h3.2] at ht; cases ht
      | inr hi => exact hi
    constructor
    · rw [hu.1, hk.1, hu.2.1, h3.1, hidx]
    constructor
    · right
      rw [hu.1, hk.1, hu.2.1, h3.1, hidx]
    · intro _ _
      rw [hu.1, hk.1]

/-- Witness for C1_lazy_sync_invariant at the spawn state with an empty
event queue. -/
theorem C1_lazy_sync_invariant_witness :
    (tick spawnWorld []).anim.animation_index = playerOrdinal (tick spawnWorld []).player
    ∧ SyncInv (tick spawnWorld [])
    ∧ (spawnWorld.playerChanged = false →
        (handle_keyboard_input spawnWorld []).playerChanged = false →
        (tick spawnWorld []).anim = spawnWorld.anim) :=
  C1_lazy_sync_invariant spawnWorld [] (Or.inl rfl)

/-- C4 counterexample: the G handler has no edge detection, so a run of two
consecutive Pressed events with no intervening Release (key repeat) flips the
toggle twice, not at most once: from the spawn state (toggle off) one Pressed
event turns the toggle on, a second consecutive Pressed event flips it again
to off, and the run emits two window-change writes. -/
theorem C4_counterexample :
    (handle_keyboard_input spawnWorld [.keyboard .G true]).keyboard.cursor_grab = true
    ∧ (handle_keyboard_input spawnWorld
        [.keyboard .G true, .keyboard .G true]).keyboard.cursor_grab = false
    ∧ (handle_keyboard_input spawnWorld
        [.keyboard .G true, .keyboard .G true]).windowWrites.length = 2 :=
  ⟨rfl, rfl, rfl⟩

/-- C4 amended: the grab key is level-filtered only (pressed versus
released), not edge-filtered: every Pressed event of the grab key flips the
KeyState toggle — so a run of n repeated Pressed events flips it n times —
and each flip writes WindowChanges.cursor_grab to the new toggle value and
WindowChanges.cursor_visible to its logical negation, while Released events
of the grab key have no effect. -/
theorem C4_grab_flip_per_press : ∀ w : World,
    (handleEvent w (.keyboard .G true)).keyboard.cursor_grab = !w.keyboard.cursor_grab
    ∧ (handleEvent w (.keyboard .G true)).window.cursor_grab
        = some (!w.keyboard.cursor_grab)
    ∧ (handleEvent w (.keyboard .G true)).window.cursor_visible
        = some (!(!w.keyboard.cursor_grab))
    ∧ (handleEvent w (.keyboard .G true)).windowWrites
        = w.windowWrites ++ [(!w.keyboard.cursor_grab, !(!w.keyboard.cursor_grab))]
    ∧ handleEvent w (.keyboard .G false) = w := by
  intro w
  exact ⟨rfl, rfl, rfl, rfl, rfl⟩

/-- The press-release-press-release sequence for the grab key. -/
def grabSeq : List Event :=
  [.keyboard .G true, .keyboard .G false, .keyboard .G true, .keyboard .G false]

/-- C5 counterexample: with initial toggle value b = false, the first
window-change request written by the press-release-press-release sequence is
(grab, visible) = (true, false) = (not b, b), not (b, not b) as claimed. -/
theorem C5_counterexample :
    spawnWorld.keyboard.cursor_grab = false
    ∧ (handle_keyboard_input spawnWorld grabSeq).windowWrites
        = [(true, false), (false, true)]
    ∧ ((true, false) : Bool × Bool) ≠ (false, true) :=
  ⟨rfl, rfl, by decide⟩

/-- C5 amended: for every initial toggle value b, processing
press-release-press-release of the grab key returns KeyState.cursor_grab to
b and appends exactly two window-change writes, the first (not b, b) and the
second the negated pair (b, not b). -/
theorem C5_double_press_roundtrip : ∀ w : World,
    (handle_keyboard_input w grabSeq).keyboard.cursor_grab = w.keyboard.cursor_grab
    ∧ (handle_keyboard_input w grabSeq).windowWrites
        = w.windowWrites ++ [(!w.keyboard.cursor_grab, w.keyboard.cursor_grab),
                             (w.keyboard.cursor_grab, !w.keyboard.cursor_grab)] := by
  intro w
  cases hb : w.keyboard.cursor_grab <;>
    simp [grabSeq, handle_keyboard_input, handleEvent, hb]

/-- C7: whenever KeyState.cursor_grab is false at the moment a mouse-motion
event is processed, the event leaves the whole World — in particular the
YawPitch driver and hence the rig orientation — unchanged, for any delta
magnitude; and because the queue drain consumes the event, processing the
queue with the event at its head equals processing the queue without it, so
the delta is discarded permanently and never applied on a later tick. -/
theorem C7_mouse_ignored_when_ungrabbed (w : World) (dx dy : ℝ) (rest : List Event)
    (h : w.keyboard.cursor_grab = false) :
    handleEvent w (.mouseMotion dx dy) = w
    ∧ (handleEvent w (.mouseMotion dx dy)).rig.driver_yaw = w.rig.driver_yaw
    ∧ (handleEvent w (.mouseMotion dx dy)).rig.driver_pitch = w.rig.driver_pitch
    ∧ handle_keyboard_input w (.mouseMotion dx dy :: rest)
        = handle_keyboard_input w rest := by
  have h1 : handleEvent w (.mouseMotion dx dy) = w := by
    simp [handleEvent, h]
  refine ⟨h1, by rw [h1], by rw [h1], ?_⟩
  show handle_keyboard_input (handleEvent w (.mouseMotion dx dy)) rest
      = handle_keyboard_input w rest
  rw [h1]

/-- Witness for C7_mouse_ignored_when_ungrabbed: at the spawn state (grab
toggle off) a (5, 7) mouse delta followed by an empty queue does nothing. -/
theorem C7_mouse_ignored_when_ungrabbed_witness :
    handleEvent spawnWorld (.mouseMotion 5 7) = spawnWorld
    ∧ (handleEvent spawnWorld (.mouseMotion 5 7)).rig.driver_yaw
        = spawnWorld.rig.driver_yaw
    ∧ (handleEvent spawnWorld (.mouseMotion 5 7)).rig.driver_pitch
        = spawnWorld.rig.driver_pitch
    ∧ handle_keyboard_input spawnWorld [.mouseMotion 5 7]
        = handle_keyboard_input spawnWorld [] :=
  C7_mouse_ignored_when_ungrabbed spawnWorld 5 7 [] rfl

/-- C8: a pressed Space event overwrites the avatar PlayerState with Jump and
a pressed LShift event overwrites it with Running, unconditionally: the
handler does not inspect the current state, the theorem holds for every
World and hence for every current PlayerState value, including the one being
re-set (last-writer-wins). -/
theorem C8_jump_run_unconditional : ∀ w : World,
    (handleEvent w (.keyboard .Space true)).player = PlayerStates.Jump
    ∧ (handleEvent w (.keyboard .LShift true)).player = PlayerStates.Running := by
  intro w
  exact ⟨rfl, rfl⟩

/-- C9: while the grab toggle is on, a mouse-motion event with delta
(dx, dy) mutates the YawPitch driver by yaw + (-0.1) * dx and
pitch + (-0.1) * dy: the sensitivity constant is 0.1 on both axes and both
axes are negated; nothing else in the World is touched. -/
theorem C9_mouse_sensitivity (w : World) (dx dy : ℝ)
    (h : w.keyboard.cursor_grab = true) :
    (handleEvent w (.mouseMotion dx dy)).rig.driver_yaw
        = w.rig.driver_yaw + -0.1 * dx
    ∧ (handleEvent w (.mouseMotion dx dy)).rig.driver_pitch
        = w.rig.driver_pitch + -0.1 * dy
    ∧ (handleEvent w (.mouseMotion dx dy)).keyboard = w.keyboard
    ∧ (handleEvent w (.mouseMotion dx dy)).player = w.player
    ∧ (handleEvent w (.mouseMotion dx dy)).rig.driver_position
        = w.rig.driver_position := by
  simp [handleEvent, h]

/-- The grabbed variant of the spawn state, for the C9 witness. -/
def grabbedWorld : World :=
  { spawnWorld with keyboard := { spawnWorld.keyboard with cursor_grab := true } }

/-- Witness for C9_mouse_sensitivity: at the grabbed spawn state a (2, 3)
mouse delta adds -0.1 * 2 to the yaw and -0.1 * 3 to the pitch. -/
theorem C9_mouse_sensitivity_witness :
    (handleEvent grabbedWorld (.mouseMotion 2 3)).rig.driver_yaw
        = grabbedWorld.rig.driver_yaw + -0.1 * 2
    ∧ (handleEvent grabbedWorld (.mouseMotion 2 3)).rig.driver_pitch
        = grabbedWorld.rig.driver_pitch + -0.1 * 3
    ∧ (handleEvent grabbedWorld (.mouseMotion 2 3)).keyboard = grabbedWorld.keyboard
    ∧ (handleEvent grabbedWorld (.mouseMotion 2 3)).player = grabbedWorld.player
    ∧ (handleEvent grabbedWorld (.mouseMotion 2 3)).rig.driver_position
        = grabbedWorld.rig.driver_position :=
  C9_mouse_sensitivity grabbedWorld 2 3 rfl

/-- C10: no insert call in SuperconductorPlugin::build (or anywhere else in
the program) attaches the Spinning tag, so rotate_entities matches zero
entities: among the spawned entities none is spinning, one application of
rotate_entities leaves the entity list — and with it every Instance
rotation — unchanged, and so does any number of repeated ticks. -/
theorem C10_rotator_no_effect :
    spawnedEntities.countP (fun e => e.spinning) = 0
    ∧ rotate_entities spawnedEntities = spawnedEntities
    ∧ ∀ n : Nat, rotate_entities^[n] spawnedEntities = spawnedEntities := by
  refine ⟨rfl, rfl, ?_⟩
  intro n
  induction n with
  | zero => rfl
  | succ k ih => rw [Function.iterate_succ_apply, show rotate_entities spawnedEntities = spawnedEntities from rfl, ih]

/-- The squared length is nonnegative. -/
theorem magSq_nonneg (v : Vec3) : 0 ≤ magSq v := by
  unfold magSq
  positivity

/-- Scaling a vector scales its length by the absolute value of the factor. -/
theorem mag_vsmul (c : ℝ) (v : Vec3) : mag (vsmul c v) = |c| * mag v := by
  unfold mag magSq vsmul
  simp only
  rw [show (c * v.x) ^ 2 + (c * v.y) ^ 2 + (c * v.z) ^ 2
      = c ^ 2 * (v.x ^ 2 + v.y ^ 2 + v.z ^ 2) from by ring,
    Real.sqrt_mul (sq_nonneg c), Real.sqrt_sq_eq_abs]

/-- clamp_length_max with a nonnegative bound really bounds the length. -/
theorem mag_clampLengthMax_le (v : Vec3) (m : ℝ) (hm : 0 ≤ m) :
    mag (clampLengthMax v m) ≤ m := by
  unfold clampLengthMax
  split
  case isTrue hlt =>
    have hpos : 0 < mag v :=
      Real.sqrt_pos.mpr (lt_of_le_of_lt (mul_self_nonneg m) hlt)
    rw [mag_vsmul, abs_of_nonneg (div_nonneg hm hpos.le),
      div_mul_cancel₀ m hpos.ne.symm]
  case isFalse hge =>
    calc mag v = Real.sqrt (magSq v) := rfl
    _ ≤ Real.sqrt (m * m) := Real.sqrt_le_sqrt (not_lt.mp hge)
    _ = m := Real.sqrt_mul_self hm

/-- When the bound is exceeded, clamp_length_max rescales to exactly the
bound. -/
theorem mag_clampLengthMax_eq (v : Vec3) (m : ℝ) (hm : 0 ≤ m)
    (h : m * m < magSq v) : mag (clampLengthMax v m) = m := by
  unfold clampLengthMax
  rw [if_pos h]
  have hpos : 0 < mag v :=
    Real.sqrt_pos.mpr (lt_of_le_of_lt (mul_self_nonneg m) h)
  rw [mag_vsmul, abs_of_nonneg (div_nonneg hm hpos.le),
    div_mul_cancel₀ m hpos.ne.symm]

/-- C6: the clamped movement intent fed to the rotation in update_camera has
magnitude at most 1 for every KeyState, and with forward and right pressed
simultaneously (back and left released) its magnitude before the speed and
dt scaling is exactly 1 — the unclamped intent has squared length 2, so the
clamp engages and rescales it from length sqrt 2 down to 1. -/
theorem C6_intent_clamped_to_unit :
    (∀ ks : KeyboardState, mag (clampLengthMax (moveIntent ks) 1) ≤ 1)
    ∧ (∀ g : Bool,
        magSq (moveIntent ⟨true, true, false, false, g⟩) = 2
        ∧ mag (moveIntent ⟨true, true, false, false, g⟩) = Real.sqrt 2
        ∧ mag (clampLengthMax (moveIntent ⟨true, true, false, false, g⟩) 1) = 1) := by
  constructor
  · intro ks
    exact mag_clampLengthMax_le (moveIntent ks) 1 zero_le_one
  · intro g
    have hsq : magSq (moveIntent ⟨true, true, false, false, g⟩) = 2 := by
      simp [moveIntent, magSq, boolToInt]
      norm_num
    refine ⟨hsq, by rw [mag, hsq], ?_⟩
    refine mag_clampLengthMax_eq _ 1 zero_le_one ?_
    rw [hsq]
    norm_num

/-- Adding then subtracting the same base vector leaves the offset. -/
theorem vsub_vadd_self (a d : Vec3) : vsub (vadd a d) a = d := by
  cases a with
  | mk ax ay az =>
    cases d with
    | mk dx dy dz =>
      simp only [vsub, vadd, Vec3.mk.injEq]
      refine ⟨by ring, by ring, by ring⟩

/-- Zero degrees is zero radians. -/
theorem deg2rad_zero : deg2rad 0 = 0 := by
  simp [deg2rad]

/-- Ninety degrees is a quarter turn. -/
theorem deg2rad_ninety : deg2rad 90 = Real.pi / 2 := by
  unfold deg2rad
  ring

/-- A zero yaw rotation is the identity. -/
theorem rotY_zero (v : Vec3) : rotY 0 v = v := by
  simp [rotY]

/-- A zero pitch rotation is the identity. -/
theorem rotX_zero (v : Vec3) : rotX 0 v = v := by
  simp [rotX]

/-- The change update_camera makes to the Position driver translation. -/
noncomputable def cameraDelta (w : World) : Vec3 :=
  vsub (update_camera w).rig.driver_position w.rig.driver_position

/-- The per-call position delta is the clamped movement intent rotated by the
final transform as it stands at the start of the call, scaled by delta_time
and speed. -/
theorem cameraDelta_eq (w : World) :
    cameraDelta w = vsmul 3 (vsmul (1 / 60)
      (rotateVec w.rig.final_yaw w.rig.final_pitch
        (clampLengthMax (moveIntent w.keyboard) 1))) :=
  vsub_vadd_self _ _

/-- The forward-only movement intent. -/
theorem moveIntent_forward (ks : KeyboardState) (hf : ks.forwards = true)
    (hb : ks.backwards = false) (hl : ks.left = false) (hr : ks.right = false) :
    moveIntent ks = ⟨0, 0, -1⟩ := by
  simp [moveIntent, boolToInt, hf, hb, hl, hr]

/-- The forward unit intent is already within the clamp bound. -/
theorem clamp_forward_unit : clampLengthMax ⟨0, 0, -1⟩ 1 = ⟨0, 0, -1⟩ := by
  unfold clampLengthMax
  rw [if_neg]
  simp [magSq]

/-- A World pitched straight at 90 degrees with only the forward key held:
the spawn state with the YawPitch driver pitched and W pressed. -/
noncomputable def pitchedWorld : World :=
  { spawnWorld with
      keyboard := { forwards := true, right := false, left := false,
                    backwards := false, cursor_grab := false },
      rig := { spawnWorld.rig with driver_pitch := 90, final_pitch := 90 } }

/-- C3 counterexample: update_camera rotates the intent by the rig's full
final_transform rotation, which includes pitch.  In the pitched World the
yaw is 0 and only forward is held, yet the position driver's translation
changes by (0, 0.05, 0) — straight up — rather than by (0, 0, -0.05) as the
claim asserts for every rig state with yaw 0. -/
theorem C3_counterexample :
    pitchedWorld.rig.final_yaw = 0
    ∧ pitchedWorld.keyboard.forwards = true
    ∧ pitchedWorld.keyboard.backwards = false
    ∧ pitchedWorld.keyboard.left = false
    ∧ pitchedWorld.keyboard.right = false
    ∧ cameraDelta pitchedWorld = ⟨0, 0.05, 0⟩
    ∧ cameraDelta pitchedWorld ≠ ⟨0, 0, -0.05⟩ := by
  have hd : cameraDelta pitchedWorld = ⟨0, 0.05, 0⟩ := by
    rw [cameraDelta_eq]
    rw [show pitchedWorld.rig.final_yaw = 0 from rfl]
    rw [show pitchedWorld.rig.final_pitch = 90 from rfl]
    rw [moveIntent_forward _ rfl rfl rfl rfl, clamp_forward_unit]
    unfold rotateVec
    rw [deg2rad_zero, deg2rad_ninety, rotY_zero]
    simp only [rotX, Real.cos_pi_div_two, Real.sin_pi_div_two, vsmul, Vec3.mk.injEq]
    norm_num
  refine ⟨rfl, rfl, rfl, rfl, rfl, hd, ?_⟩
  rw [hd]
  simp only [ne_eq, Vec3.mk.injEq, not_and]
  intro _ h
  norm_num at h

/-- C3 amended: the movement intent is rotated by the rig's current rotation
as of the start of the call — determined by the pre-update final yaw AND
pitch, so two Worlds agreeing on those and on KeyState get the same delta
even if their drivers (the post-update pose) differ — and the concrete
(0, 0, -1) * speed * dt = (0, 0, -0.05) delta holds for forward-only input
whenever yaw = 0 and additionally pitch = 0. -/
theorem C3_move_uses_pre_update_rotation :
    (∀ w1 w2 : World, w1.rig.final_yaw = w2.rig.final_yaw →
        w1.rig.final_pitch = w2.rig.final_pitch → w1.keyboard = w2.keyboard →
        cameraDelta w1 = cameraDelta w2)
    ∧ (∀ w : World, w.rig.final_yaw = 0 → w.rig.final_pitch = 0 →
        w.keyboard.forwards = true → w.keyboard.backwards = false →
        w.keyboard.left = false → w.keyboard.right = false →
        cameraDelta w = ⟨0, 0, -0.05⟩) := by
  constructor
  · intro w1 w2 hy hp hk
    rw [cameraDelta_eq, cameraDelta_eq, hy, hp, hk]
  · intro w hy hp hf hb hl hr
    rw [cameraDelta_eq, hy, hp, moveIntent_forward _ hf hb hl hr, clamp_forward_unit]
    unfold rotateVec
    rw [deg2rad_zero, rotY_zero, rotX_zero]
    simp only [vsmul, Vec3.mk.injEq]
    norm_num

/-- The spawn state with only the forward key held (yaw and pitch both 0). -/
noncomputable def forwardWorld : World :=
  { spawnWorld with
      keyboard := { forwards := true, right := false, left := false,
                    backwards := false, cursor_grab := false } }

/-- forwardWorld with the drivers already moved and re-aimed but the
final transform (the pre-update pose) untouched. -/
noncomputable def movedWorld : World :=
  { forwardWorld with
      rig := { forwardWorld.rig with driver_position := ⟨1, 2, 3⟩,
                                     driver_yaw := 45,
                                     driver_pitch := 10 } }

/-- Witness for C3_move_uses_pre_update_rotation: the delta of forwardWorld
matches that of movedWorld (the post-update pose is irrelevant) and equals
(0, 0, -0.05). -/
theorem C3_move_uses_pre_update_rotation_witness :
    cameraDelta forwardWorld = cameraDelta movedWorld
    ∧ cameraDelta forwardWorld = ⟨0, 0, -0.05⟩ :=
  ⟨C3_move_uses_pre_update_rotation.1 forwardWorld movedWorld rfl rfl rfl,
   C3_move_uses_pre_update_rotation.2 forwardWorld rfl rfl rfl rfl rfl rfl⟩
